import Mathlib

/-!
# Verification of the `toy_atm` accounting core

Shallow embedding of `src/accounting/atm.rs`, `src/accounting/common.rs` and
`src/accounting/transaction.rs`, together with theorems about the per-client
balance state machine (`ClientBalance`).

Embedding conventions:
* `Amount` in the source is an `f64` that is re-rounded to the fixed
  4-decimal precision (scale factor 10,000) on construction and after every
  addition/subtraction, so every stored value is a multiple of `10^-4`.
  We embed an `Amount` as the exact integer count of `10^-4` units (`Int`),
  which is the arithmetic the source realises at the fixed precision:
  addition, subtraction and negation of multiples of `10^-4` stay multiples
  of `10^-4` and are represented exactly.
* `ClientID` (`u16`) and `TransactionID` (`u32`) are only used for equality
  and lookup in the core; they are embedded as `Nat`.
* The `HashMap<TransactionID, CreditDebitState>` is embedded as an
  association list with unique keys (every insertion in the source is
  guarded by a `contains_key` check, so keys never repeat); `get_mut`
  followed by a state update is embedded as `map_set_transaction_state`.
* `&mut self` methods returning `Result` are embedded as functions from the
  receiver state to a pair of the `Except` result and the post-call state,
  so that mutation-before-error behaviour is represented faithfully.
-/

namespace ToyAtm

/-- `Amount` at the fixed 4-decimal precision: an exact integer count of
`10^-4` currency units (source: `common.rs`, `struct Amount(f64)` with
`AMOUNT_PRECISION_EXP = 1e4`). -/
abbrev Amount := Int

/-- `Amount::reversed`: the additive inverse. -/
def Amount.reversed (a : Amount) : Amount := -a

/-- `Amount::is_negative`: strictly below zero. -/
def Amount.is_negative (a : Amount) : Bool := decide (a < 0)

/-- `Amount::is_zero`. -/
def Amount.is_zero (a : Amount) : Bool := decide (a = 0)

/-- `TransactionID` (`u32`): used only for equality/lookup in the core. -/
abbrev TransactionID := Nat

/-- `ClientID` (`u16`): used only for routing, never inspected by
`ClientBalance`. -/
abbrev ClientID := Nat

/-- `TransactionType` from `transaction.rs`: the five transaction kinds,
with an amount payload only on `Deposit` and `Withdrawal`. -/
inductive TransactionType where
  | Deposit (amount : Amount)
  | Withdrawal (amount : Amount)
  | Dispute
  | Resolve
  | Chargeback
deriving DecidableEq, Repr

/-- `Transaction` from `transaction.rs`. -/
structure Transaction where
  client_id : ClientID
  transaction_id : TransactionID
  transaction_type : TransactionType
deriving DecidableEq, Repr

/-- `IgnoredTransactionReason` from `atm.rs`: the eight reasons for which a
transaction is ignored with the account balance unmodified. -/
inductive IgnoredTransactionReason where
  | LockedAccount
  | NegativeAmount
  | ZeroAmount
  | DuplicateTransactionIDInsertion
  | InsufficientAvailableFunds
  | MissingTransactionID
  | NoTransactionStateChange
  | InvalidTransactionStateTransition
deriving DecidableEq, Repr

/-- `InvalidClientBalance` from `atm.rs`: which of the three balance
recomputations disagreed with the stored fields. -/
inductive InvalidClientBalance where
  | InvalidAvailableAmount
  | InvalidHeldAmount
  | InvalidTotalAmount
deriving DecidableEq, Repr

/-- `HandledTransactionError` from `atm.rs`. -/
inductive HandledTransactionError where
  | IgnoredTransactionReason (id : TransactionID) (reason : IgnoredTransactionReason)
  | InvalidClientBalance (id : TransactionID) (invalid : InvalidClientBalance)
deriving DecidableEq, Repr

/-- `HandledTransactionResult = Result<(), HandledTransactionError>`. -/
abbrev HandledTransactionResult := Except HandledTransactionError Unit

/-- `TransactionState` from `atm.rs`: dispute lifecycle of a ledger entry. -/
inductive TransactionState where
  | Disputed
  | Resolved
  | Chargeback
deriving DecidableEq, Repr

/-- `TransactionStateTransition` from `atm.rs`. -/
inductive TransactionStateTransition where
  | NoOperation
  | Invalid
  | Valid
deriving DecidableEq, Repr

/-- `TransactionState::calc_transition`: classify a transition of a ledger
entry between dispute-lifecycle states. -/
def TransactionState.calc_transition (from_state to_state : TransactionState) :
    TransactionStateTransition :=
  match from_state, to_state with
  | .Disputed, .Disputed => .NoOperation
  | .Disputed, .Resolved => .Valid
  | .Disputed, .Chargeback => .Valid
  | .Resolved, .Disputed => .Valid
  | .Resolved, .Resolved => .NoOperation
  | .Resolved, .Chargeback => .Invalid
  | .Chargeback, _ => .Invalid

/-- `CreditDebitState` from `atm.rs`: a ledger entry pairing the original
deposit/withdrawal amount with its dispute-lifecycle state. -/
inductive CreditDebitState where
  | Deposit (amount : Amount) (state : TransactionState)
  | Withdrawal (amount : Amount) (state : TransactionState)
deriving DecidableEq, Repr

/-- `CreditDebitState::deposit`: fresh deposit entry, `Resolved` state. -/
def CreditDebitState.deposit (amount : Amount) : CreditDebitState :=
  .Deposit amount .Resolved

/-- `CreditDebitState::withdrawal`: fresh withdrawal entry, `Resolved`
state. -/
def CreditDebitState.withdrawal (amount : Amount) : CreditDebitState :=
  .Withdrawal amount .Resolved

/-- `CreditDebitState::get_credit_or_debit_reverse_amount`: `+amount` for a
deposit entry, `-amount` for a withdrawal entry. -/
def CreditDebitState.get_credit_or_debit_reverse_amount :
    CreditDebitState → Amount
  | .Deposit amount _ => amount
  | .Withdrawal amount _ => Amount.reversed amount

/-- `CreditDebitState::get_transaction_state`. -/
def CreditDebitState.get_transaction_state : CreditDebitState → TransactionState
  | .Deposit _ state => state
  | .Withdrawal _ state => state

/-- `CreditDebitState::set_transaction_state`. -/
def CreditDebitState.set_transaction_state :
    CreditDebitState → TransactionState → CreditDebitState
  | .Deposit amount _, to_state => .Deposit amount to_state
  | .Withdrawal amount _, to_state => .Withdrawal amount to_state

/-- The in-place update performed through `HashMap::get_mut` followed by
`CreditDebitState::set_transaction_state`: set the dispute state of the
entry stored under `transaction_id` (keys are unique, see module header). -/
def map_set_transaction_state (ts : List (TransactionID × CreditDebitState))
    (transaction_id : TransactionID) (to_state : TransactionState) :
    List (TransactionID × CreditDebitState) :=
  ts.map fun p =>
    if p.1 = transaction_id then (p.1, p.2.set_transaction_state to_state) else p

/-- `ClientBalance` from `atm.rs`: one client's balance state machine. -/
structure ClientBalance where
  client_id : ClientID
  available : Amount
  held : Amount
  total : Amount
  locked : Bool
  transactions : List (TransactionID × CreditDebitState)
deriving DecidableEq, Repr

/-- The all-zero `ClientBalance` created by `Atm::handle_transaction` on
first sight of a client (`ClientBalance { client_id, ..Default::default() }`). -/
def ClientBalance.fresh (client_id : ClientID) : ClientBalance :=
  ⟨client_id, 0, 0, 0, false, []⟩

/-- `ClientBalance::is_valid`: the three-way balance recomputation check
(`available = total - held`, `held = total - available`,
`total = available + held`), reporting the first disagreement. -/
def ClientBalance.is_valid (self : ClientBalance) :
    Except InvalidClientBalance Unit :=
  let available := self.total - self.held
  if ¬ self.available = available then .error .InvalidAvailableAmount
  else
    let held := self.total - self.available
    if ¬ self.held = held then .error .InvalidHeldAmount
    else
      let total := self.available + self.held
      if ¬ self.total = total then .error .InvalidTotalAmount
      else .ok ()

/-- `ClientBalance::handle_deposit_or_withdrawal_insertion`: shared
deposit/withdrawal logic, parameterized by direction. -/
def ClientBalance.handle_deposit_or_withdrawal_insertion (self : ClientBalance)
    (transaction_id : TransactionID) (amount : Amount) ( is_withdrawal : Bool) :
    Except IgnoredTransactionReason Unit × ClientBalance :=
  if Amount.is_negative amount then (.error .NegativeAmount, self)
  else if Amount.is_zero amount then (.error .ZeroAmount, self)
  else if (self.transactions.lookup transaction_id).isSome then
    (.error .DuplicateTransactionIDInsertion, self)
  else if is_withdrawal ∧ self.available < amount then
    (.error .InsufficientAvailableFunds, self)
  else if is_withdrawal then
    (.ok (), { self with
      transactions := (transaction_id, CreditDebitState.withdrawal amount) :: self.transactions,
      available := self.available - amount,
      total := self.total - amount })
  else
    (.ok (), { self with
      transactions := (transaction_id, CreditDebitState.deposit amount) :: self.transactions,
      available := self.available + amount,
      total := self.total + amount })

/-- `ClientBalance::handle_deposit`. -/
def ClientBalance.handle_deposit (self : ClientBalance)
    (transaction_id : TransactionID) (amount : Amount) :
    Except IgnoredTransactionReason Unit × ClientBalance :=
  self.handle_deposit_or_withdrawal_insertion transaction_id amount false

/-- `ClientBalance::handle_withdrawal`. -/
def ClientBalance.handle_withdrawal (self : ClientBalance)
    (transaction_id : TransactionID) (amount : Amount) :
    Except IgnoredTransactionReason Unit × ClientBalance :=
  self.handle_deposit_or_withdrawal_insertion transaction_id amount true

/-- `ClientBalance::handle_transaction_trasition` (sic): shared
dispute/resolve/chargeback logic, parameterized by the target state. -/
def ClientBalance.handle_transaction_trasition (self : ClientBalance)
    (transaction_id : TransactionID) (to_state : TransactionState) :
    Except IgnoredTransactionReason Unit × ClientBalance :=
  match self.transactions.lookup transaction_id with
  | none => (.error .MissingTransactionID, self)
  | some tx =>
    let from_state := tx.get_transaction_state
    match TransactionState.calc_transition from_state to_state with
    | .NoOperation => (.error .NoTransactionStateChange, self)
    | .Invalid => (.error .InvalidTransactionStateTransition, self)
    | .Valid =>
      let updated := tx.set_transaction_state to_state
      let self1 := { self with
        transactions := map_set_transaction_state self.transactions transaction_id to_state }
      let amount := updated.get_credit_or_debit_reverse_amount
      match to_state with
      | .Disputed =>
        (.ok (), { self1 with
          available := self1.available - amount,
          held := self1.held + amount })
      | .Resolved =>
        (.ok (), { self1 with
          available := self1.available + amount,
          held := self1.held - amount })
      | .Chargeback =>
        (.ok (), { self1 with
          locked := true,
          total := self1.total - amount,
          held := self1.held - amount })

/-- `ClientBalance::handle_dispute`. -/
def ClientBalance.handle_dispute (self : ClientBalance)
    (transaction_id : TransactionID) :
    Except IgnoredTransactionReason Unit × ClientBalance :=
  self.handle_transaction_trasition transaction_id .Disputed

/-- `ClientBalance::handle_resolve`. -/
def ClientBalance.handle_resolve (self : ClientBalance)
    (transaction_id : TransactionID) :
    Except IgnoredTransactionReason Unit × ClientBalance :=
  self.handle_transaction_trasition transaction_id .Resolved

/-- `ClientBalance::handle_chargeback`. -/
def ClientBalance.handle_chargeback (self : ClientBalance)
    (transaction_id : TransactionID) :
    Except IgnoredTransactionReason Unit × ClientBalance :=
  self.handle_transaction_trasition transaction_id .Chargeback

/-- `ClientBalance::handle_transaction`: the public contract — locked
check, dispatch on transaction type, error wrapping with the transaction
ID, then the defensive `is_valid` recheck. -/
def ClientBalance.handle_transaction (self : ClientBalance) (tx : Transaction) :
    HandledTransactionResult × ClientBalance :=
  let transaction_id := tx.transaction_id
  if self.locked then
    (.error (.IgnoredTransactionReason transaction_id .LockedAccount), self)
  else
    let handled :=
      match tx.transaction_type with
      | .Deposit credit_amount => self.handle_deposit transaction_id credit_amount
      | .Withdrawal debit_amount => self.handle_withdrawal transaction_id debit_amount
      | .Dispute => self.handle_dispute transaction_id
      | .Resolve => self.handle_resolve transaction_id
      | .Chargeback => self.handle_chargeback transaction_id
    match handled with
    | (.error ignore_err, s) =>
      (.error (.IgnoredTransactionReason transaction_id ignore_err), s)
    | (.ok _, s) =>
      match s.is_valid with
      | .error err => (.error (.InvalidClientBalance transaction_id err), s)
      | .ok _ => (.ok (), s)

/-- Apply a sequence of transactions in stream order to one client's
balance (the per-client restriction of the batch driver's loop through
`Atm::handle_transaction`), keeping only the state. -/
def ClientBalance.process_all (self : ClientBalance) (txs : List Transaction) :
    ClientBalance :=
  txs.foldl (fun s tx => (s.handle_transaction tx).2) self

/-- The `ClientBalance` states reachable from the fresh all-zero state by
a finite sequence of `handle_transaction` calls. -/
inductive Reachable : ClientBalance → Prop where
  | fresh (client_id : ClientID) : Reachable (ClientBalance.fresh client_id)
  | step (s : ClientBalance) (tx : Transaction) (hs : Reachable s) :
      Reachable (s.handle_transaction tx).2

/-- Setting the dispute state of a ledger entry does not change its
reversal amount. -/
theorem set_state_reverse_amount (e : CreditDebitState) (t : TransactionState) :
    (e.set_transaction_state t).get_credit_or_debit_reverse_amount =
      e.get_credit_or_debit_reverse_amount := by
  cases e <;> rfl

/-- Setting the dispute state of a ledger entry sets exactly that state. -/
theorem get_set_transaction_state (e : CreditDebitState) (t : TransactionState) :
    (e.set_transaction_state t).get_transaction_state = t := by
  cases e <;> rfl

/-- Association-list lookup finds the head entry under its own key. -/
theorem lookup_cons_self (k : TransactionID) (v : CreditDebitState)
    (l : List (TransactionID × CreditDebitState)) :
    List.lookup k ((k, v) :: l) = some v := by
  simp [List.lookup]

/-- Association-list lookup skips a head entry with a different key. -/
theorem lookup_cons_of_ne (k k' : TransactionID) (v : CreditDebitState)
    (l : List (TransactionID × CreditDebitState)) (h : k' ≠ k) :
    List.lookup k' ((k, v) :: l) = List.lookup k' l := by
  have hb : (k' == k) = false := by simpa using h
  simp [List.lookup, hb]

/-- `map_set_transaction_state` on a cons cell whose key is the target. -/
theorem map_set_transaction_state_cons_self (k : TransactionID)
    (v : CreditDebitState) (rest : List (TransactionID × CreditDebitState))
    (t : TransactionState) :
    map_set_transaction_state ((k, v) :: rest) k t =
      (k, v.set_transaction_state t) :: map_set_transaction_state rest k t := by
  simp [map_set_transaction_state]

/-- `map_set_transaction_state` on a cons cell with a different key. -/
theorem map_set_transaction_state_cons_of_ne (k : TransactionID)
    (v : CreditDebitState) (rest : List (TransactionID × CreditDebitState))
    (id : TransactionID) (t : TransactionState) (h : k ≠ id) :
    map_set_transaction_state ((k, v) :: rest) id t =
      (k, v) :: map_set_transaction_state rest id t := by
  simp [map_set_transaction_state, h]

/-- Looking up in the entry map after an in-place state update: the entry
under the updated key has its state set, all other keys are untouched. -/
theorem lookup_map_set_transaction_state
    (ts : List (TransactionID × CreditDebitState)) (id id' : TransactionID)
    (t : TransactionState) :
    (map_set_transaction_state ts id t).lookup id' =
      if id' = id then
        Option.map (fun e => e.set_transaction_state t) (ts.lookup id')
      else ts.lookup id' := by
  induction ts with
  | nil => simp [map_set_transaction_state]
  | cons p rest ih =>
    rcases p with ⟨k, v⟩
    by_cases hk : k = id
    · subst hk
      rw [map_set_transaction_state_cons_self]
      by_cases hk' : id' = k
      · subst hk'
        rw [lookup_cons_self, lookup_cons_self, if_pos rfl]
        rfl
      · rw [lookup_cons_of_ne _ _ _ _ hk', lookup_cons_of_ne _ _ _ _ hk', ih]
    · rw [map_set_transaction_state_cons_of_ne _ _ _ _ _ hk]
      by_cases hk' : id' = k
      · subst hk'
        rw [lookup_cons_self, lookup_cons_self, if_neg hk]
      · rw [lookup_cons_of_ne _ _ _ _ hk', lookup_cons_of_ne _ _ _ _ hk', ih]

/-- If the shared deposit/withdrawal handler reports an ignored reason, it
has not touched the balance state. -/
theorem insertion_error_unchanged (s : ClientBalance) (id : TransactionID)
    (a : Amount) (w : Bool) (r : IgnoredTransactionReason) (s' : ClientBalance)
    (h : s.handle_deposit_or_withdrawal_insertion id a w = (.error r, s')) :
    s' = s := by
  unfold ClientBalance.handle_deposit_or_withdrawal_insertion at h
  split_ifs at h <;> simp_all

/-- If the shared dispute/resolve/chargeback handler reports an ignored
reason, it has not touched the balance state. -/
theorem trasition_error_unchanged (s : ClientBalance) (id : TransactionID)
    (t : TransactionState) (r : IgnoredTransactionReason) (s' : ClientBalance)
    (h : s.handle_transaction_trasition id t = (.error r, s')) :
    s' = s := by
  unfold ClientBalance.handle_transaction_trasition at h
  split at h
  · simp_all
  · next e heq =>
    rcases hc : TransactionState.calc_transition e.get_transaction_state t with _ | _ | _ <;>
      simp only [hc] at h
    · simp_all
    · simp_all
    · cases t <;> simp_all

/-- The shared deposit/withdrawal handler preserves the balance equation
`total = available + held`. -/
theorem insertion_snd_balance_eq (s : ClientBalance) (id : TransactionID)
    (a : Amount) (w : Bool) (h : s.total = s.available + s.held) :
    ((s.handle_deposit_or_withdrawal_insertion id a w).2).total =
      ((s.handle_deposit_or_withdrawal_insertion id a w).2).available +
        ((s.handle_deposit_or_withdrawal_insertion id a w).2).held := by
  unfold ClientBalance.handle_deposit_or_withdrawal_insertion
  split_ifs <;> simp <;> linarith

/-- The shared dispute/resolve/chargeback handler preserves the balance
equation `total = available + held`. -/
theorem trasition_snd_balance_eq (s : ClientBalance) (id : TransactionID)
    (t : TransactionState) (h : s.total = s.available + s.held) :
    ((s.handle_transaction_trasition id t).2).total =
      ((s.handle_transaction_trasition id t).2).available +
        ((s.handle_transaction_trasition id t).2).held := by
  unfold ClientBalance.handle_transaction_trasition
  split
  · simpa using h
  · next e heq =>
    rcases hc : TransactionState.calc_transition e.get_transaction_state t with _ | _ | _ <;>
      simp only [hc]
    · simpa using h
    · simpa using h
    · cases t <;> simp <;> linarith

/-- The balance equation makes the three-way `is_valid` recomputation
succeed. -/
theorem balance_eq_is_valid_ok (s : ClientBalance)
    (h : s.total = s.available + s.held) : s.is_valid = .ok () := by
  simp only [ClientBalance.is_valid]
  split_ifs <;>
    first
    | rfl
    | (exfalso; rename_i hc; apply hc; linarith)

/-- Conversely, a succeeding `is_valid` recomputation yields the balance
equation. -/
theorem is_valid_ok_balance_eq (s : ClientBalance)
    (h : s.is_valid = .ok ()) : s.total = s.available + s.held := by
  simp only [ClientBalance.is_valid] at h
  split_ifs at h with h1 h2 h3
  exact h3

/-- `handle_transaction` preserves the balance equation
`total = available + held` in its post-state, whatever the result. -/
theorem handle_transaction_snd_balance_eq (s : ClientBalance) (tx : Transaction)
    (h : s.total = s.available + s.held) :
    ((s.handle_transaction tx).2).total =
      ((s.handle_transaction tx).2).available +
        ((s.handle_transaction tx).2).held := by
  rcases tx with ⟨c, tid, ty⟩
  unfold ClientBalance.handle_transaction
  by_cases hl : s.locked = true
  · simp [hl]; linarith
  · rw [Bool.not_eq_true] at hl
    simp only [hl, Bool.false_eq_true, if_false]
    cases ty with
    | Deposit a =>
      have hb := insertion_snd_balance_eq s tid a false h
      simp only [ClientBalance.handle_deposit]
      split
      · rename_i ig s1 heq
        rw [heq] at hb
        simpa using hb
      · rename_i u s1 heq
        rw [heq] at hb
        split <;> simpa using hb
    | Withdrawal a =>
      have hb := insertion_snd_balance_eq s tid a true h
      simp only [ClientBalance.handle_withdrawal]
      split
      · rename_i ig s1 heq
        rw [heq] at hb
        simpa using hb
      · rename_i u s1 heq
        rw [heq] at hb
        split <;> simpa using hb
    | Dispute =>
      have hb := trasition_snd_balance_eq s tid .Disputed h
      simp only [ClientBalance.handle_dispute]
      split
      · rename_i ig s1 heq
        rw [heq] at hb
        simpa using hb
      · rename_i u s1 heq
        rw [heq] at hb
        split <;> simpa using hb
    | Resolve =>
      have hb := trasition_snd_balance_eq s tid .Resolved h
      simp only [ClientBalance.handle_resolve]
      split
      · rename_i ig s1 heq
        rw [heq] at hb
        simpa using hb
      · rename_i u s1 heq
        rw [heq] at hb
        split <;> simpa using hb
    | Chargeback =>
      have hb := trasition_snd_balance_eq s tid .Chargeback h
      simp only [ClientBalance.handle_chargeback]
      split
      · rename_i ig s1 heq
        rw [heq] at hb
        simpa using hb
      · rename_i u s1 heq
        rw [heq] at hb
        split <;> simpa using hb

/-- Every reachable state satisfies the balance equation. -/
theorem reachable_balance_eq (s : ClientBalance) (hs : Reachable s) :
    s.total = s.available + s.held := by
  induction hs with
  | fresh cid => simp [ClientBalance.fresh]
  | step s tx hs ih => exact handle_transaction_snd_balance_eq s tx ih

/-- If `handle_transaction` reports `InvalidClientBalance`, then the
post-state really fails the `is_valid` recomputation with that reason. -/
theorem handle_invalid_is_valid_error (s : ClientBalance) (tx : Transaction)
    (id : TransactionID) (r : InvalidClientBalance)
    (h : (s.handle_transaction tx).1 = .error (.InvalidClientBalance id r)) :
    ((s.handle_transaction tx).2).is_valid = .error r := by
  rcases tx with ⟨c, tid, ty⟩
  unfold ClientBalance.handle_transaction at h ⊢
  by_cases hl : s.locked = true
  · simp [hl] at h
  · rw [Bool.not_eq_true] at hl
    simp only [hl, Bool.false_eq_true, if_false] at h ⊢
    cases ty <;>
      simp only [ClientBalance.handle_deposit, ClientBalance.handle_withdrawal,
        ClientBalance.handle_dispute, ClientBalance.handle_resolve,
        ClientBalance.handle_chargeback] at h ⊢ <;>
      (split at h
       · rename_i ig s1 heq
         simp at h
       · rename_i u s1 heq
         split at h
         · rename_i err hv
           simp at h
           simp only []
           rw [hv, h.2]
         · simp at h)

/-- On a locked account `handle_transaction` returns immediately with
`LockedAccount` and the untouched state. -/
theorem handle_transaction_of_locked (s : ClientBalance) (tx : Transaction)
    (h : s.locked = true) :
    s.handle_transaction tx =
      (.error (.IgnoredTransactionReason tx.transaction_id .LockedAccount), s) := by
  simp [ClientBalance.handle_transaction, h]

/-- Inversion: a deposit insertion that returned `ok` produced exactly the
credited state with a fresh `Resolved` entry. -/
theorem insertion_deposit_ok_inversion (s : ClientBalance)
    (id : TransactionID) (a : Amount) (u : Unit) (s1 : ClientBalance)
    (heq : s.handle_deposit_or_withdrawal_insertion id a false = (.ok u, s1)) :
    s1 = { s with
      transactions := (id, CreditDebitState.deposit a) :: s.transactions,
      available := s.available + a,
      total := s.total + a } := by
  unfold ClientBalance.handle_deposit_or_withdrawal_insertion at heq
  simp only [Bool.false_eq_true, false_and, if_false] at heq
  split_ifs at heq <;> simp at heq
  exact heq.symm

/-- Insertion equation: accepted deposit. -/
theorem insertion_deposit_ok (s : ClientBalance) (id : TransactionID)
    (a : Amount) (h0 : 0 < a) (hnf : s.transactions.lookup id = none) :
    s.handle_deposit_or_withdrawal_insertion id a false =
      (.ok (), { s with
        transactions := (id, CreditDebitState.deposit a) :: s.transactions,
        available := s.available + a,
        total := s.total + a }) := by
  have h1 : ¬ a < 0 := by linarith
  have h2 : ¬ a = 0 := by linarith
  unfold ClientBalance.handle_deposit_or_withdrawal_insertion
  simp [Amount.is_negative, Amount.is_zero, h1, h2, hnf]

/-- Insertion equation: accepted withdrawal (`available ≥ amount`). -/
theorem insertion_withdrawal_ok (s : ClientBalance) (id : TransactionID)
    (a : Amount) (h0 : 0 < a) (hnf : s.transactions.lookup id = none)
    (hav : ¬ s.available < a) :
    s.handle_deposit_or_withdrawal_insertion id a true =
      (.ok (), { s with
        transactions := (id, CreditDebitState.withdrawal a) :: s.transactions,
        available := s.available - a,
        total := s.total - a }) := by
  have h1 : ¬ a < 0 := by linarith
  have h2 : ¬ a = 0 := by linarith
  unfold ClientBalance.handle_deposit_or_withdrawal_insertion
  simp [Amount.is_negative, Amount.is_zero, h1, h2, hnf, hav]

/-- Insertion equation: withdrawal rejected for insufficient funds
(strictly `available < amount`). -/
theorem insertion_withdrawal_insufficient (s : ClientBalance)
    (id : TransactionID) (a : Amount) (h0 : 0 < a)
    (hnf : s.transactions.lookup id = none) (hav : s.available < a) :
    s.handle_deposit_or_withdrawal_insertion id a true =
      (.error .InsufficientAvailableFunds, s) := by
  have h1 : ¬ a < 0 := by linarith
  have h2 : ¬ a = 0 := by linarith
  unfold ClientBalance.handle_deposit_or_withdrawal_insertion
  simp [Amount.is_negative, Amount.is_zero, h1, h2, hnf, hav]

/-- Transition equation: missing transaction ID. -/
theorem trasition_of_missing (s : ClientBalance) (id : TransactionID)
    (t : TransactionState) (h : s.transactions.lookup id = none) :
    s.handle_transaction_trasition id t = (.error .MissingTransactionID, s) := by
  unfold ClientBalance.handle_transaction_trasition
  simp only [h]

/-- Transition equation: no-op transition. -/
theorem trasition_of_noop (s : ClientBalance) (id : TransactionID)
    (t : TransactionState) (e : CreditDebitState)
    (hlk : s.transactions.lookup id = some e)
    (hc : TransactionState.calc_transition e.get_transaction_state t =
      .NoOperation) :
    s.handle_transaction_trasition id t =
      (.error .NoTransactionStateChange, s) := by
  unfold ClientBalance.handle_transaction_trasition
  simp only [hlk, hc]

/-- Transition equation: invalid transition. -/
theorem trasition_of_invalid (s : ClientBalance) (id : TransactionID)
    (t : TransactionState) (e : CreditDebitState)
    (hlk : s.transactions.lookup id = some e)
    (hc : TransactionState.calc_transition e.get_transaction_state t =
      .Invalid) :
    s.handle_transaction_trasition id t =
      (.error .InvalidTransactionStateTransition, s) := by
  unfold ClientBalance.handle_transaction_trasition
  simp only [hlk, hc]

/-- Transition equation: valid transition into `Disputed`
(`available -= r; held += r` with `r` the entry's reversal amount). -/
theorem trasition_of_valid_disputed (s : ClientBalance) (id : TransactionID)
    (e : CreditDebitState) (hlk : s.transactions.lookup id = some e)
    (hc : TransactionState.calc_transition e.get_transaction_state .Disputed =
      .Valid) :
    s.handle_transaction_trasition id .Disputed =
      (.ok (), { s with
        transactions := map_set_transaction_state s.transactions id .Disputed,
        available := s.available - e.get_credit_or_debit_reverse_amount,
        held := s.held + e.get_credit_or_debit_reverse_amount }) := by
  unfold ClientBalance.handle_transaction_trasition
  simp only [hlk, hc, set_state_reverse_amount]

/-- Transition equation: valid transition into `Resolved`
(`available += r; held -= r`). -/
theorem trasition_of_valid_resolved (s : ClientBalance) (id : TransactionID)
    (e : CreditDebitState) (hlk : s.transactions.lookup id = some e)
    (hc : TransactionState.calc_transition e.get_transaction_state .Resolved =
      .Valid) :
    s.handle_transaction_trasition id .Resolved =
      (.ok (), { s with
        transactions := map_set_transaction_state s.transactions id .Resolved,
        available := s.available + e.get_credit_or_debit_reverse_amount,
        held := s.held - e.get_credit_or_debit_reverse_amount }) := by
  unfold ClientBalance.handle_transaction_trasition
  simp only [hlk, hc, set_state_reverse_amount]

/-- Transition equation: valid transition into `Chargeback`
(`locked = true; total -= r; held -= r`). -/
theorem trasition_of_valid_chargeback (s : ClientBalance) (id : TransactionID)
    (e : CreditDebitState) (hlk : s.transactions.lookup id = some e)
    (hc : TransactionState.calc_transition e.get_transaction_state .Chargeback =
      .Valid) :
    s.handle_transaction_trasition id .Chargeback =
      (.ok (), { s with
        locked := true,
        total := s.total - e.get_credit_or_debit_reverse_amount,
        held := s.held - e.get_credit_or_debit_reverse_amount,
        transactions :=
          map_set_transaction_state s.transactions id .Chargeback }) := by
  unfold ClientBalance.handle_transaction_trasition
  simp only [hlk, hc, set_state_reverse_amount]

/-- Wrap lemma: on an unlocked account a `Dispute` whose transition handler
errors is surfaced as `IgnoredTransactionReason` with the transaction ID. -/
theorem handle_dispute_of_error (s : ClientBalance) (c : ClientID)
    (id : TransactionID) (ig : IgnoredTransactionReason) (s1 : ClientBalance)
    (hl : s.locked = false)
    (ht : s.handle_transaction_trasition id .Disputed = (.error ig, s1)) :
    s.handle_transaction ⟨c, id, .Dispute⟩ =
      (.error (.IgnoredTransactionReason id ig), s1) := by
  unfold ClientBalance.handle_transaction
  simp only [hl, Bool.false_eq_true, if_false, ClientBalance.handle_dispute, ht]

/-- Wrap lemma: `Resolve` analogue of `handle_dispute_of_error`. -/
theorem handle_resolve_of_error (s : ClientBalance) (c : ClientID)
    (id : TransactionID) (ig : IgnoredTransactionReason) (s1 : ClientBalance)
    (hl : s.locked = false)
    (ht : s.handle_transaction_trasition id .Resolved = (.error ig, s1)) :
    s.handle_transaction ⟨c, id, .Resolve⟩ =
      (.error (.IgnoredTransactionReason id ig), s1) := by
  unfold ClientBalance.handle_transaction
  simp only [hl, Bool.false_eq_true, if_false, ClientBalance.handle_resolve, ht]

/-- Wrap lemma: `Chargeback` analogue of `handle_dispute_of_error`. -/
theorem handle_chargeback_of_error (s : ClientBalance) (c : ClientID)
    (id : TransactionID) (ig : IgnoredTransactionReason) (s1 : ClientBalance)
    (hl : s.locked = false)
    (ht : s.handle_transaction_trasition id .Chargeback = (.error ig, s1)) :
    s.handle_transaction ⟨c, id, .Chargeback⟩ =
      (.error (.IgnoredTransactionReason id ig), s1) := by
  unfold ClientBalance.handle_transaction
  simp only [hl, Bool.false_eq_true, if_false, ClientBalance.handle_chargeback,
    ht]

/-- Wrap lemma: on an unlocked account a `Dispute` whose transition handler
succeeds yields the handler's post-state, never an ignored reason, and
succeeds outright when the post-state passes `is_valid`. -/
theorem handle_dispute_of_ok (s : ClientBalance) (c : ClientID)
    (id : TransactionID) (u : Unit) (s1 : ClientBalance)
    (hl : s.locked = false)
    (ht : s.handle_transaction_trasition id .Disputed = (.ok u, s1)) :
    (s.handle_transaction ⟨c, id, .Dispute⟩).2 = s1 ∧
    (∀ id' r', (s.handle_transaction ⟨c, id, .Dispute⟩).1 ≠
      .error (.IgnoredTransactionReason id' r')) ∧
    (s1.is_valid = .ok () →
      (s.handle_transaction ⟨c, id, .Dispute⟩).1 = .ok ()) := by
  unfold ClientBalance.handle_transaction
  simp only [hl, Bool.false_eq_true, if_false, ClientBalance.handle_dispute, ht]
  rcases hv : s1.is_valid with err | _ <;> simp [hv]

/-- Wrap lemma: `Resolve` analogue of `handle_dispute_of_ok`. -/
theorem handle_resolve_of_ok (s : ClientBalance) (c : ClientID)
    (id : TransactionID) (u : Unit) (s1 : ClientBalance)
    (hl : s.locked = false)
    (ht : s.handle_transaction_trasition id .Resolved = (.ok u, s1)) :
    (s.handle_transaction ⟨c, id, .Resolve⟩).2 = s1 ∧
    (∀ id' r', (s.handle_transaction ⟨c, id, .Resolve⟩).1 ≠
      .error (.IgnoredTransactionReason id' r')) ∧
    (s1.is_valid = .ok () →
      (s.handle_transaction ⟨c, id, .Resolve⟩).1 = .ok ()) := by
  unfold ClientBalance.handle_transaction
  simp only [hl, Bool.false_eq_true, if_false, ClientBalance.handle_resolve, ht]
  rcases hv : s1.is_valid with err | _ <;> simp [hv]

/-- Wrap lemma: `Chargeback` analogue of `handle_dispute_of_ok`. -/
theorem handle_chargeback_of_ok (s : ClientBalance) (c : ClientID)
    (id : TransactionID) (u : Unit) (s1 : ClientBalance)
    (hl : s.locked = false)
    (ht : s.handle_transaction_trasition id .Chargeback = (.ok u, s1)) :
    (s.handle_transaction ⟨c, id, .Chargeback⟩).2 = s1 ∧
    (∀ id' r', (s.handle_transaction ⟨c, id, .Chargeback⟩).1 ≠
      .error (.IgnoredTransactionReason id' r')) ∧
    (s1.is_valid = .ok () →
      (s.handle_transaction ⟨c, id, .Chargeback⟩).1 = .ok ()) := by
  unfold ClientBalance.handle_transaction
  simp only [hl, Bool.false_eq_true, if_false, ClientBalance.handle_chargeback,
    ht]
  rcases hv : s1.is_valid with err | _ <;> simp [hv]

/-- Wrap lemma: on an unlocked account a `Withdrawal` whose insertion
handler errors is surfaced as `IgnoredTransactionReason` with the
transaction ID. -/
theorem handle_withdrawal_of_error (s : ClientBalance) (c : ClientID)
    (id : TransactionID) (a : Amount) (ig : IgnoredTransactionReason)
    (s1 : ClientBalance) (hl : s.locked = false)
    (ht : s.handle_deposit_or_withdrawal_insertion id a true =
      (.error ig, s1)) :
    s.handle_transaction ⟨c, id, .Withdrawal a⟩ =
      (.error (.IgnoredTransactionReason id ig), s1) := by
  unfold ClientBalance.handle_transaction
  simp only [hl, Bool.false_eq_true, if_false, ClientBalance.handle_withdrawal,
    ht]

/-- Wrap lemma: on an unlocked account a `Withdrawal` whose insertion
handler succeeds yields the handler's post-state, never an ignored reason,
and succeeds outright when the post-state passes `is_valid`. -/
theorem handle_withdrawal_of_ok (s : ClientBalance) (c : ClientID)
    (id : TransactionID) (a : Amount) (u : Unit) (s1 : ClientBalance)
    (hl : s.locked = false)
    (ht : s.handle_deposit_or_withdrawal_insertion id a true = (.ok u, s1)) :
    (s.handle_transaction ⟨c, id, .Withdrawal a⟩).2 = s1 ∧
    (∀ id' r', (s.handle_transaction ⟨c, id, .Withdrawal a⟩).1 ≠
      .error (.IgnoredTransactionReason id' r')) ∧
    (s1.is_valid = .ok () →
      (s.handle_transaction ⟨c, id, .Withdrawal a⟩).1 = .ok ()) := by
  unfold ClientBalance.handle_transaction
  simp only [hl, Bool.false_eq_true, if_false, ClientBalance.handle_withdrawal,
    ht]
  rcases hv : s1.is_valid with err | _ <;> simp [hv]

/-- A successful deposit/withdrawal insertion preserves the property that
ledger entries in `Chargeback` state exist only on locked accounts. -/
theorem insertion_ok_chargeback_locked (s : ClientBalance) (id : TransactionID)
    (a : Amount) (w : Bool) (u : Unit) (s1 : ClientBalance)
    (heq : s.handle_deposit_or_withdrawal_insertion id a w = (.ok u, s1))
    (hinv : ∀ id' e, s.transactions.lookup id' = some e →
      e.get_transaction_state = .Chargeback → s.locked = true) :
    ∀ id' e, s1.transactions.lookup id' = some e →
      e.get_transaction_state = .Chargeback → s1.locked = true := by
  unfold ClientBalance.handle_deposit_or_withdrawal_insertion at heq
  split_ifs at heq <;> simp at heq <;>
    (subst heq
     intro id' e hlk hcb
     by_cases hid : id' = id
     · subst hid
       simp only [lookup_cons_self, Option.some.injEq] at hlk
       subst hlk
       simp [CreditDebitState.withdrawal, CreditDebitState.deposit,
         CreditDebitState.get_transaction_state] at hcb
     · rw [lookup_cons_of_ne _ _ _ _ hid] at hlk
       exact hinv id' e hlk hcb)

/-- A successful dispute/resolve/chargeback transition preserves the
property that `Chargeback` entries exist only on locked accounts. -/
theorem trasition_ok_chargeback_locked (s : ClientBalance) (id : TransactionID)
    (t : TransactionState) (u : Unit) (s1 : ClientBalance)
    (heq : s.handle_transaction_trasition id t = (.ok u, s1))
    (hinv : ∀ id' e, s.transactions.lookup id' = some e →
      e.get_transaction_state = .Chargeback → s.locked = true) :
    ∀ id' e, s1.transactions.lookup id' = some e →
      e.get_transaction_state = .Chargeback → s1.locked = true := by
  unfold ClientBalance.handle_transaction_trasition at heq
  split at heq
  · simp at heq
  · rename_i e0 hlk0
    rcases hc : TransactionState.calc_transition e0.get_transaction_state t
        with _ | _ | _ <;>
      simp only [hc] at heq
    · simp at heq
    · simp at heq
    · cases t
      case Disputed =>
        simp at heq
        subst heq
        intro id' e hlk hcb
        simp only [lookup_map_set_transaction_state] at hlk
        by_cases hid : id' = id
        · subst hid
          rw [if_pos rfl, hlk0] at hlk
          simp at hlk
          subst hlk
          rw [get_set_transaction_state] at hcb
          cases hcb
        · rw [if_neg hid] at hlk
          exact hinv id' e hlk hcb
      case Resolved =>
        simp at heq
        subst heq
        intro id' e hlk hcb
        simp only [lookup_map_set_transaction_state] at hlk
        by_cases hid : id' = id
        · subst hid
          rw [if_pos rfl, hlk0] at hlk
          simp at hlk
          subst hlk
          rw [get_set_transaction_state] at hcb
          cases hcb
        · rw [if_neg hid] at hlk
          exact hinv id' e hlk hcb
      case Chargeback =>
        simp at heq
        subst heq
        intro id' e hlk hcb
        rfl

/-- One `handle_transaction` step preserves the property that `Chargeback`
entries exist only on locked accounts. -/
theorem handle_chargeback_locked_step (s : ClientBalance) (tx : Transaction)
    (hinv : ∀ id' e, s.transactions.lookup id' = some e →
      e.get_transaction_state = .Chargeback → s.locked = true) :
    ∀ id' e, ((s.handle_transaction tx).2).transactions.lookup id' = some e →
      e.get_transaction_state = .Chargeback →
      ((s.handle_transaction tx).2).locked = true := by
  by_cases hl : s.locked = true
  · rw [handle_transaction_of_locked _ _ hl]
    exact hinv
  · rw [Bool.not_eq_true] at hl
    rcases tx with ⟨c, tid, ty⟩
    unfold ClientBalance.handle_transaction
    simp only [hl, Bool.false_eq_true, if_false]
    cases ty <;>
      simp only [ClientBalance.handle_deposit, ClientBalance.handle_withdrawal,
        ClientBalance.handle_dispute, ClientBalance.handle_resolve,
        ClientBalance.handle_chargeback] <;>
      (split
       · rename_i ig s1 heq
         have hs1 : s1 = s := by
           first
           | exact insertion_error_unchanged s tid _ _ ig s1 heq
           | exact trasition_error_unchanged s tid _ ig s1 heq
         subst hs1
         exact hinv
       · rename_i u s1 heq
         split <;>
           first
           | exact insertion_ok_chargeback_locked s tid _ _ u s1 heq hinv
           | exact trasition_ok_chargeback_locked s tid _ u s1 heq hinv)

/-- Every reachable state has `Chargeback` entries only when locked. -/
theorem reachable_chargeback_locked_inv (s : ClientBalance) (hs : Reachable s) :
    ∀ id e, s.transactions.lookup id = some e →
      e.get_transaction_state = .Chargeback → s.locked = true := by
  induction hs with
  | fresh cid =>
    intro id e hlk
    simp [ClientBalance.fresh] at hlk
  | step s tx hs ih => exact handle_chargeback_locked_step s tx ih

/-- The shared deposit/withdrawal handler never reports
`InvalidTransactionStateTransition`. -/
theorem insertion_error_not_invalid_transition (s : ClientBalance)
    (id : TransactionID) (a : Amount) (w : Bool)
    (ig : IgnoredTransactionReason) (s1 : ClientBalance)
    (heq : s.handle_deposit_or_withdrawal_insertion id a w = (.error ig, s1)) :
    ig ≠ .InvalidTransactionStateTransition := by
  unfold ClientBalance.handle_deposit_or_withdrawal_insertion at heq
  split_ifs at heq <;>
    (simp at heq
     try (rcases heq with ⟨h1, h2⟩
          subst h1
          simp))

/-- If the transition handler reports `InvalidTransactionStateTransition`,
the referenced entry exists and its transition really classifies as
`Invalid`. -/
theorem trasition_invalid_inversion (s : ClientBalance) (id : TransactionID)
    (t : TransactionState) (s1 : ClientBalance)
    (heq : s.handle_transaction_trasition id t =
      (.error .InvalidTransactionStateTransition, s1)) :
    ∃ e, s.transactions.lookup id = some e ∧
      TransactionState.calc_transition e.get_transaction_state t = .Invalid := by
  unfold ClientBalance.handle_transaction_trasition at heq
  split at heq
  · simp at heq
  · rename_i e0 hlk0
    rcases hc : TransactionState.calc_transition e0.get_transaction_state t
        with _ | _ | _ <;>
      simp only [hc] at heq
    · simp at heq
    · exact ⟨e0, hlk0, hc⟩
    · cases t <;> simp at heq

/-- C10: In every reachable `ClientBalance` state, a ledger entry in
`Chargeback` state implies the account is locked; consequently the
transition-table row out of `Chargeback` is unreachable through
`handle_transaction`, and `InvalidTransactionStateTransition` is only ever
observable for a `Chargeback` transaction referencing an entry in the
`Resolved` state. -/
theorem chargeback_entry_implies_locked (s : ClientBalance) (hs : Reachable s) :
    (∀ id e, s.transactions.lookup id = some e →
        e.get_transaction_state = .Chargeback → s.locked = true) ∧
    ∀ tx : Transaction, ∀ id : TransactionID,
      (s.handle_transaction tx).1 =
          .error (.IgnoredTransactionReason id .InvalidTransactionStateTransition) →
        tx.transaction_type = .Chargeback ∧
        ∃ e, s.transactions.lookup tx.transaction_id = some e ∧
          e.get_transaction_state = .Resolved := by
  have hinv := reachable_chargeback_locked_inv s hs
  refine ⟨hinv, ?_⟩
  intro tx id hres
  by_cases hl : s.locked = true
  · rw [handle_transaction_of_locked _ _ hl] at hres
    simp at hres
  · rw [Bool.not_eq_true] at hl
    rcases tx with ⟨c, tid, ty⟩
    unfold ClientBalance.handle_transaction at hres
    simp only [hl, Bool.false_eq_true, if_false] at hres
    cases ty with
    | Deposit a =>
      simp only [ClientBalance.handle_deposit] at hres
      split at hres
      · rename_i ig s1 heq
        simp at hres
        exact absurd hres.2
          (insertion_error_not_invalid_transition s tid a false ig s1 heq)
      · split at hres <;> simp at hres
    | Withdrawal a =>
      simp only [ClientBalance.handle_withdrawal] at hres
      split at hres
      · rename_i ig s1 heq
        simp at hres
        exact absurd hres.2
          (insertion_error_not_invalid_transition s tid a true ig s1 heq)
      · split at hres <;> simp at hres
    | Dispute =>
      simp only [ClientBalance.handle_dispute] at hres
      split at hres
      · rename_i ig s1 heq
        simp at hres
        rcases hres with ⟨h1, h2⟩
        subst h2
        obtain ⟨e, hlk, hc⟩ := trasition_invalid_inversion s tid .Disputed s1 heq
        cases hse : e.get_transaction_state <;> rw [hse] at hc <;>
          simp [TransactionState.calc_transition] at hc
        exact absurd (hinv tid e hlk hse) (by simp [hl])
      · split at hres <;> simp at hres
    | Resolve =>
      simp only [ClientBalance.handle_resolve] at hres
      split at hres
      · rename_i ig s1 heq
        simp at hres
        rcases hres with ⟨h1, h2⟩
        subst h2
        obtain ⟨e, hlk, hc⟩ := trasition_invalid_inversion s tid .Resolved s1 heq
        cases hse : e.get_transaction_state <;> rw [hse] at hc <;>
          simp [TransactionState.calc_transition] at hc
        exact absurd (hinv tid e hlk hse) (by simp [hl])
      · split at hres <;> simp at hres
    | Chargeback =>
      simp only [ClientBalance.handle_chargeback] at hres
      split at hres
      · rename_i ig s1 heq
        simp at hres
        rcases hres with ⟨h1, h2⟩
        subst h2
        obtain ⟨e, hlk, hc⟩ :=
          trasition_invalid_inversion s tid .Chargeback s1 heq
        cases hse : e.get_transaction_state <;> rw [hse] at hc <;>
          simp [TransactionState.calc_transition] at hc
        · exact ⟨rfl, e, hlk, hse⟩
        · exact absurd (hinv tid e hlk hse) (by simp [hl])
      · split at hres <;> simp at hres

/-- Witness for C10: after a single accepted deposit, charging back the
still-`Resolved` entry is the observable `InvalidTransactionStateTransition`. -/
theorem chargeback_entry_implies_locked_witness :
    (⟨1, 1, .Chargeback⟩ : Transaction).transaction_type =
        TransactionType.Chargeback ∧
      ∃ e, (((ClientBalance.fresh 1).handle_transaction
            ⟨1, 1, .Deposit 100000⟩).2).transactions.lookup
          (⟨1, 1, .Chargeback⟩ : Transaction).transaction_id = some e ∧
        e.get_transaction_state = .Resolved :=
  (chargeback_entry_implies_locked _ (.step _ _ (.fresh 1))).2
    ⟨1, 1, .Chargeback⟩ 1 rfl

/-- C1: For every state reachable from the fresh all-zero state, the
three-way balance recomputation (`is_valid`) succeeds — the stored fields
satisfy `total = available + held` and all three recomputations agree —
and no `handle_transaction` call from a reachable state ever returns
`HandledTransactionError.InvalidClientBalance`; moreover the post-state of
every call still satisfies the balance equation. -/
theorem reachable_balance_always_valid (s : ClientBalance) (hs : Reachable s) :
    s.is_valid = .ok () ∧
    ∀ tx : Transaction,
      (((s.handle_transaction tx).2).total =
          ((s.handle_transaction tx).2).available +
            ((s.handle_transaction tx).2).held ∧
        ∀ id r, (s.handle_transaction tx).1 ≠
          .error (.InvalidClientBalance id r)) := by
  have hb := reachable_balance_eq s hs
  refine ⟨balance_eq_is_valid_ok s hb,
    fun tx => ⟨handle_transaction_snd_balance_eq s tx hb, ?_⟩⟩
  intro id r hcon
  have h1 := handle_invalid_is_valid_error s tx id r hcon
  have h2 := balance_eq_is_valid_ok _ (handle_transaction_snd_balance_eq s tx hb)
  rw [h1] at h2
  simp at h2

/-- Witness for C1 at a concrete reachable state and transaction. -/
theorem reachable_balance_always_valid_witness :
    (ClientBalance.fresh 7).is_valid = .ok () ∧
    ((ClientBalance.fresh 7).handle_transaction ⟨7, 1, .Deposit 10000⟩).1 ≠
      .error (.InvalidClientBalance 1 .InvalidTotalAmount) :=
  ⟨(reachable_balance_always_valid (ClientBalance.fresh 7) (.fresh 7)).1,
    ((reachable_balance_always_valid (ClientBalance.fresh 7) (.fresh 7)).2
      ⟨7, 1, .Deposit 10000⟩).2 1 .InvalidTotalAmount⟩

/-- C3: Atomicity of ignored transactions — whenever `handle_transaction`
returns `IgnoredTransactionReason` (whatever the reason), the post-state is
exactly the pre-state (available, held, total, locked and the ledger-entry
map all unchanged), and the error carries the input transaction's ID. -/
theorem ignored_transaction_leaves_state_unchanged (s : ClientBalance)
    (tx : Transaction) (id : TransactionID) (r : IgnoredTransactionReason)
    (h : (s.handle_transaction tx).1 = .error (.IgnoredTransactionReason id r)) :
    (s.handle_transaction tx).2 = s ∧ id = tx.transaction_id := by
  rcases tx with ⟨c, tid, ty⟩
  by_cases hl : s.locked = true
  · rw [handle_transaction_of_locked _ _ hl] at h ⊢
    simp at h ⊢
    first
    | exact h.1
    | exact h.1.symm
  · rw [Bool.not_eq_true] at hl
    unfold ClientBalance.handle_transaction at h ⊢
    simp only [hl, Bool.false_eq_true, if_false] at h ⊢
    cases ty <;>
      simp only [ClientBalance.handle_deposit, ClientBalance.handle_withdrawal,
        ClientBalance.handle_dispute, ClientBalance.handle_resolve,
        ClientBalance.handle_chargeback] at h ⊢ <;>
      (split at h
       · rename_i ig s1 heq
         have hs1 : s1 = s := by
           first
           | exact insertion_error_unchanged s tid _ _ ig s1 heq
           | exact trasition_error_unchanged s tid _ ig s1 heq
         subst hs1
         simp at h ⊢
         first
         | exact h.1
         | exact h.1.symm
       · rename_i u s1 heq
         split at h <;> simp at h)

/-- Witness for C3 at a concrete state and transaction (a dispute of a
missing transaction ID). -/
theorem ignored_transaction_leaves_state_unchanged_witness :
    ((ClientBalance.fresh 2).handle_transaction ⟨2, 99, .Dispute⟩).2 =
        ClientBalance.fresh 2 ∧
      (99 : TransactionID) = (⟨2, 99, .Dispute⟩ : Transaction).transaction_id :=
  ignored_transaction_leaves_state_unchanged (ClientBalance.fresh 2)
    ⟨2, 99, .Dispute⟩ 99 .MissingTransactionID rfl

/-- C2: Monotonic lock law — once a `ClientBalance` is locked, every
`handle_transaction` call, for every transaction type, returns
`IgnoredTransactionReason.LockedAccount` carrying the transaction's ID and
leaves the whole state (available, held, total, locked, ledger entries)
unchanged; in particular `locked` is never reset and any further sequence
of transactions leaves the state fixed. -/
theorem locked_account_rejects_all (s : ClientBalance) (tx : Transaction)
    (h : s.locked = true) :
    s.handle_transaction tx =
      (.error (.IgnoredTransactionReason tx.transaction_id .LockedAccount), s) ∧
    ((s.handle_transaction tx).2.locked = true ∧
      ∀ txs : List Transaction, s.process_all txs = s) := by
  refine ⟨handle_transaction_of_locked s tx h, ?_, ?_⟩
  · rw [handle_transaction_of_locked s tx h]; exact h
  · intro txs
    induction txs with
    | nil => rfl
    | cons t rest ih =>
      show ClientBalance.process_all _ _ = _
      unfold ClientBalance.process_all at ih ⊢
      rw [List.foldl_cons, handle_transaction_of_locked s t h]
      exact ih

/-- Witness for C2 at a concrete locked state. -/
theorem locked_account_rejects_all_witness :
    (⟨1, 20000, 0, 20000, true, []⟩ : ClientBalance).handle_transaction
        ⟨1, 5, .Dispute⟩ =
      (.error (.IgnoredTransactionReason 5 .LockedAccount),
        (⟨1, 20000, 0, 20000, true, []⟩ : ClientBalance)) :=
  (locked_account_rejects_all ⟨1, 20000, 0, 20000, true, []⟩ ⟨1, 5, .Dispute⟩ rfl).1

/-- C4: A concrete stream in which a withdrawal is disputed and later
charged back after the account already reflects the debit.  The dispute of
withdrawal 2 (amount 10.0000) uses the negative reversal amount −10.0000:
it moves `available` from 0 to 10.0000 and `held` from 0 to −10.0000.
After charging back that withdrawal the client ends with `held = −20.0000`
and `total = −10.0000`, both negative, and the account locked. -/
theorem withdrawal_dispute_chargeback_negative_scenario :
    (((ClientBalance.fresh 1).process_all
        [⟨1, 1, .Deposit 100000⟩, ⟨1, 2, .Withdrawal 100000⟩]).transactions.lookup 2
      = some (.Withdrawal 100000 .Resolved)) ∧
    CreditDebitState.get_credit_or_debit_reverse_amount
        (.Withdrawal 100000 .Resolved) = -100000 ∧
    ((ClientBalance.fresh 1).process_all
        [⟨1, 1, .Deposit 100000⟩, ⟨1, 2, .Withdrawal 100000⟩]).available = 0 ∧
    ((ClientBalance.fresh 1).process_all
        [⟨1, 1, .Deposit 100000⟩, ⟨1, 2, .Withdrawal 100000⟩]).held = 0 ∧
    ((ClientBalance.fresh 1).process_all
        [⟨1, 1, .Deposit 100000⟩, ⟨1, 2, .Withdrawal 100000⟩, ⟨1, 2, .Dispute⟩]).available
      = 0 - (-100000) ∧
    ((ClientBalance.fresh 1).process_all
        [⟨1, 1, .Deposit 100000⟩, ⟨1, 2, .Withdrawal 100000⟩, ⟨1, 2, .Dispute⟩]).held
      = 0 + (-100000) ∧
    ((ClientBalance.fresh 1).process_all
        [⟨1, 1, .Deposit 100000⟩, ⟨1, 2, .Withdrawal 100000⟩, ⟨1, 2, .Dispute⟩,
         ⟨1, 3, .Withdrawal 100000⟩, ⟨1, 3, .Dispute⟩,
         ⟨1, 4, .Withdrawal 100000⟩, ⟨1, 4, .Dispute⟩, ⟨1, 2, .Chargeback⟩]).held < 0 ∧
    ((ClientBalance.fresh 1).process_all
        [⟨1, 1, .Deposit 100000⟩, ⟨1, 2, .Withdrawal 100000⟩, ⟨1, 2, .Dispute⟩,
         ⟨1, 3, .Withdrawal 100000⟩, ⟨1, 3, .Dispute⟩,
         ⟨1, 4, .Withdrawal 100000⟩, ⟨1, 4, .Dispute⟩, ⟨1, 2, .Chargeback⟩]).total < 0 ∧
    ((ClientBalance.fresh 1).process_all
        [⟨1, 1, .Deposit 100000⟩, ⟨1, 2, .Withdrawal 100000⟩, ⟨1, 2, .Dispute⟩,
         ⟨1, 3, .Withdrawal 100000⟩, ⟨1, 3, .Dispute⟩,
         ⟨1, 4, .Withdrawal 100000⟩, ⟨1, 4, .Dispute⟩, ⟨1, 2, .Chargeback⟩]).locked
      = true := by
  decide

/-- C5: The dispute-state transition table, as realised by
`handle_transaction` on an unlocked account for an existing ledger entry:
`Disputed→Disputed` and `Resolved→Resolved` are no-ops surfacing
`NoTransactionStateChange` with the state unchanged; `Disputed→Resolved`,
`Disputed→Chargeback` and `Resolved→Disputed` are valid and applied (and
never surface an ignored reason); `Resolved→Chargeback` and every
transition out of `Chargeback` surface `InvalidTransactionStateTransition`
with the state unchanged — a resolved entry cannot be charged back
directly. -/
theorem dispute_state_transition_table (s : ClientBalance) (c : ClientID)
    (id : TransactionID) (e : CreditDebitState) (hl : s.locked = false)
    (hlk : s.transactions.lookup id = some e) :
    (TransactionState.calc_transition .Disputed .Disputed = .NoOperation ∧
      TransactionState.calc_transition .Disputed .Resolved = .Valid ∧
      TransactionState.calc_transition .Disputed .Chargeback = .Valid ∧
      TransactionState.calc_transition .Resolved .Disputed = .Valid ∧
      TransactionState.calc_transition .Resolved .Resolved = .NoOperation ∧
      TransactionState.calc_transition .Resolved .Chargeback = .Invalid ∧
      ∀ t, TransactionState.calc_transition .Chargeback t = .Invalid) ∧
    (e.get_transaction_state = .Disputed →
      s.handle_transaction ⟨c, id, .Dispute⟩ =
        (.error (.IgnoredTransactionReason id .NoTransactionStateChange), s)) ∧
    (e.get_transaction_state = .Resolved →
      s.handle_transaction ⟨c, id, .Resolve⟩ =
        (.error (.IgnoredTransactionReason id .NoTransactionStateChange), s)) ∧
    (e.get_transaction_state = .Disputed →
      (s.handle_transaction ⟨c, id, .Resolve⟩).2 =
        { s with
          transactions := map_set_transaction_state s.transactions id .Resolved,
          available := s.available + e.get_credit_or_debit_reverse_amount,
          held := s.held - e.get_credit_or_debit_reverse_amount } ∧
      ∀ id' r', (s.handle_transaction ⟨c, id, .Resolve⟩).1 ≠
        .error (.IgnoredTransactionReason id' r')) ∧
    (e.get_transaction_state = .Disputed →
      (s.handle_transaction ⟨c, id, .Chargeback⟩).2 =
        { s with
          locked := true,
          total := s.total - e.get_credit_or_debit_reverse_amount,
          held := s.held - e.get_credit_or_debit_reverse_amount,
          transactions :=
            map_set_transaction_state s.transactions id .Chargeback } ∧
      ∀ id' r', (s.handle_transaction ⟨c, id, .Chargeback⟩).1 ≠
        .error (.IgnoredTransactionReason id' r')) ∧
    (e.get_transaction_state = .Resolved →
      (s.handle_transaction ⟨c, id, .Dispute⟩).2 =
        { s with
          transactions := map_set_transaction_state s.transactions id .Disputed,
          available := s.available - e.get_credit_or_debit_reverse_amount,
          held := s.held + e.get_credit_or_debit_reverse_amount } ∧
      ∀ id' r', (s.handle_transaction ⟨c, id, .Dispute⟩).1 ≠
        .error (.IgnoredTransactionReason id' r')) ∧
    (e.get_transaction_state = .Resolved →
      s.handle_transaction ⟨c, id, .Chargeback⟩ =
        (.error
          (.IgnoredTransactionReason id .InvalidTransactionStateTransition),
          s)) ∧
    (e.get_transaction_state = .Chargeback →
      s.handle_transaction ⟨c, id, .Dispute⟩ =
        (.error
          (.IgnoredTransactionReason id .InvalidTransactionStateTransition),
          s) ∧
      s.handle_transaction ⟨c, id, .Resolve⟩ =
        (.error
          (.IgnoredTransactionReason id .InvalidTransactionStateTransition),
          s) ∧
      s.handle_transaction ⟨c, id, .Chargeback⟩ =
        (.error
          (.IgnoredTransactionReason id .InvalidTransactionStateTransition),
          s)) := by
  refine ⟨⟨rfl, rfl, rfl, rfl, rfl, rfl, fun t => by cases t <;> rfl⟩,
    ?_, ?_, ?_, ?_, ?_, ?_, ?_⟩
  · intro hse
    exact handle_dispute_of_error s c id _ s hl
      (trasition_of_noop s id .Disputed e hlk (by rw [hse]; rfl))
  · intro hse
    exact handle_resolve_of_error s c id _ s hl
      (trasition_of_noop s id .Resolved e hlk (by rw [hse]; rfl))
  · intro hse
    obtain ⟨hb, hni, -⟩ := handle_resolve_of_ok s c id () _ hl
      (trasition_of_valid_resolved s id e hlk (by rw [hse]; rfl))
    exact ⟨hb, hni⟩
  · intro hse
    obtain ⟨hb, hni, -⟩ := handle_chargeback_of_ok s c id () _ hl
      (trasition_of_valid_chargeback s id e hlk (by rw [hse]; rfl))
    exact ⟨hb, hni⟩
  · intro hse
    obtain ⟨hb, hni, -⟩ := handle_dispute_of_ok s c id () _ hl
      (trasition_of_valid_disputed s id e hlk (by rw [hse]; rfl))
    exact ⟨hb, hni⟩
  · intro hse
    exact handle_chargeback_of_error s c id _ s hl
      (trasition_of_invalid s id .Chargeback e hlk (by rw [hse]; rfl))
  · intro hse
    exact ⟨handle_dispute_of_error s c id _ s hl
        (trasition_of_invalid s id .Disputed e hlk (by rw [hse]; rfl)),
      handle_resolve_of_error s c id _ s hl
        (trasition_of_invalid s id .Resolved e hlk (by rw [hse]; rfl)),
      handle_chargeback_of_error s c id _ s hl
        (trasition_of_invalid s id .Chargeback e hlk (by rw [hse]; rfl))⟩

/-- Witness for C5 at a concrete state: charging back a still-`Resolved`
deposit entry is rejected as an invalid transition with the state kept. -/
theorem dispute_state_transition_table_witness :
    (((ClientBalance.fresh 1).handle_transaction
        ⟨1, 1, .Deposit 100000⟩).2).handle_transaction ⟨1, 1, .Chargeback⟩ =
      (.error (.IgnoredTransactionReason 1 .InvalidTransactionStateTransition),
        ((ClientBalance.fresh 1).handle_transaction ⟨1, 1, .Deposit 100000⟩).2) :=
  (dispute_state_transition_table
    ((ClientBalance.fresh 1).handle_transaction ⟨1, 1, .Deposit 100000⟩).2
    1 1 (.Deposit 100000 .Resolved) rfl rfl).2.2.2.2.2.2.1 rfl

/-- C6: For a positive, non-duplicate `Withdrawal` on an unlocked account,
`InsufficientAvailableFunds` is returned iff `available < amount` (strict),
so a withdrawal of exactly the available funds is not rejected: it
decreases `available` and `total` by the amount, leaves `held` untouched,
creates the `Resolved` ledger entry, and (when the incoming state satisfies
the balance equation) returns `ok`. -/
theorem withdrawal_insufficient_funds_iff (s : ClientBalance) (c : ClientID)
    (id : TransactionID) (a : Amount) (hl : s.locked = false) (h0 : 0 < a)
    (hnf : s.transactions.lookup id = none) :
    ((s.handle_transaction ⟨c, id, .Withdrawal a⟩).1 =
        .error (.IgnoredTransactionReason id .InsufficientAvailableFunds) ↔
      s.available < a) ∧
    (¬ s.available < a →
      (s.handle_transaction ⟨c, id, .Withdrawal a⟩).2 =
        { s with
          transactions :=
            (id, CreditDebitState.withdrawal a) :: s.transactions,
          available := s.available - a,
          total := s.total - a } ∧
      (s.total = s.available + s.held →
        (s.handle_transaction ⟨c, id, .Withdrawal a⟩).1 = .ok ())) := by
  by_cases hav : s.available < a
  · have heq := handle_withdrawal_of_error s c id a _ s hl
      (insertion_withdrawal_insufficient s id a h0 hnf hav)
    rw [heq]
    exact ⟨⟨fun _ => hav, fun _ => rfl⟩, fun hcon => absurd hav hcon⟩
  · obtain ⟨hb, hni, hok⟩ := handle_withdrawal_of_ok s c id a () _ hl
      (insertion_withdrawal_ok s id a h0 hnf hav)
    refine ⟨⟨fun hcontra =>
        absurd hcontra (hni id .InsufficientAvailableFunds),
      fun hcontra => absurd hcontra hav⟩,
      fun _ => ⟨hb, fun hbal => ?_⟩⟩
    apply hok
    apply balance_eq_is_valid_ok
    show s.total - a = s.available - a + s.held
    linarith

/-- Witness for C6: withdrawing exactly the available funds succeeds. -/
theorem withdrawal_insufficient_funds_iff_witness :
    ((((ClientBalance.fresh 1).handle_transaction
        ⟨1, 1, .Deposit 100000⟩).2).handle_transaction
        ⟨1, 2, .Withdrawal 100000⟩).1 = .ok () :=
  ((withdrawal_insufficient_funds_iff
    ((ClientBalance.fresh 1).handle_transaction ⟨1, 1, .Deposit 100000⟩).2
    1 2 100000 rfl (by decide) rfl).2 (by decide)).2 (by decide)

/-- C7: Dispute/resolve round trip — after an accepted `Deposit(id, a)`,
applying `Dispute(id)` and then `Resolve(id)` restores `available` and
`total` to their values immediately after the deposit, returns `held` to
its pre-dispute value, and leaves the entry back in the `Resolved` state. -/
theorem dispute_resolve_round_trip (s : ClientBalance) (c : ClientID)
    (id : TransactionID) (a : Amount) (s1 s2 s3 : ClientBalance)
    (r2 r3 : HandledTransactionResult)
    (h1 : s.handle_transaction ⟨c, id, .Deposit a⟩ = (.ok (), s1))
    (h2 : s1.handle_transaction ⟨c, id, .Dispute⟩ = (r2, s2))
    (h3 : s2.handle_transaction ⟨c, id, .Resolve⟩ = (r3, s3)) :
    s3.available = s1.available ∧ s3.total = s1.total ∧ s3.held = s1.held ∧
    s3.transactions.lookup id = some (.Deposit a .Resolved) := by
  by_cases hlock : s.locked = true
  · rw [handle_transaction_of_locked _ _ hlock] at h1
    simp at h1
  · rw [Bool.not_eq_true] at hlock
    unfold ClientBalance.handle_transaction at h1
    simp only [hlock, Bool.false_eq_true, if_false,
      ClientBalance.handle_deposit] at h1
    split at h1
    · simp at h1
    · rename_i u s1' heq
      split at h1
      · simp at h1
      · simp at h1
        subst h1
        have hs1 := insertion_deposit_ok_inversion s id a u s1' heq
        have hl1 : s1'.locked = false := by rw [hs1]; exact hlock
        have hlk1 : s1'.transactions.lookup id =
            some (CreditDebitState.deposit a) := by
          rw [hs1]; exact lookup_cons_self id _ _
        have ht2 := trasition_of_valid_disputed s1' id
          (CreditDebitState.deposit a) hlk1 rfl
        have hsnd2 := (handle_dispute_of_ok s1' c id () _ hl1 ht2).1
        rw [h2] at hsnd2
        simp at hsnd2
        subst hsnd2
        have hl2 :
            ({ s1' with
              transactions :=
                map_set_transaction_state s1'.transactions id .Disputed,
              available := s1'.available -
                (CreditDebitState.deposit a).get_credit_or_debit_reverse_amount,
              held := s1'.held +
                (CreditDebitState.deposit a).get_credit_or_debit_reverse_amount
              } : ClientBalance).locked = false := hl1
        have hlk2 :
            ({ s1' with
              transactions :=
                map_set_transaction_state s1'.transactions id .Disputed,
              available := s1'.available -
                (CreditDebitState.deposit a).get_credit_or_debit_reverse_amount,
              held := s1'.held +
                (CreditDebitState.deposit a).get_credit_or_debit_reverse_amount
              } : ClientBalance).transactions.lookup id =
            some (.Deposit a .Disputed) := by
          show (map_set_transaction_state s1'.transactions id
            .Disputed).lookup id = _
          rw [lookup_map_set_transaction_state, if_pos rfl, hlk1]
          rfl
        have ht3 := trasition_of_valid_resolved _ id (.Deposit a .Disputed)
          hlk2 rfl
        have hsnd3 := (handle_resolve_of_ok _ c id () _ hl2 ht3).1
        rw [h3] at hsnd3
        simp at hsnd3
        subst hsnd3
        refine ⟨?_, ?_, ?_, ?_⟩
        · show _ - _ + (CreditDebitState.Deposit a
              .Disputed).get_credit_or_debit_reverse_amount = _
          simp [CreditDebitState.get_credit_or_debit_reverse_amount,
            CreditDebitState.deposit]
        · rfl
        · show _ + _ - (CreditDebitState.Deposit a
              .Disputed).get_credit_or_debit_reverse_amount = _
          simp [CreditDebitState.get_credit_or_debit_reverse_amount,
            CreditDebitState.deposit]
        · show (map_set_transaction_state _ id .Resolved).lookup id = _
          rw [lookup_map_set_transaction_state, if_pos rfl, hlk2]
          rfl

/-- Witness for C7 at a concrete deposit/dispute/resolve sequence. -/
theorem dispute_resolve_round_trip_witness :
    ((((((ClientBalance.fresh 1).handle_transaction
          ⟨1, 1, .Deposit 50000⟩).2).handle_transaction
          ⟨1, 1, .Dispute⟩).2).handle_transaction ⟨1, 1, .Resolve⟩).2.available =
        (((ClientBalance.fresh 1).handle_transaction
          ⟨1, 1, .Deposit 50000⟩).2).available ∧
      ((((((ClientBalance.fresh 1).handle_transaction
          ⟨1, 1, .Deposit 50000⟩).2).handle_transaction
          ⟨1, 1, .Dispute⟩).2).handle_transaction ⟨1, 1, .Resolve⟩).2.total =
        (((ClientBalance.fresh 1).handle_transaction
          ⟨1, 1, .Deposit 50000⟩).2).total ∧
      ((((((ClientBalance.fresh 1).handle_transaction
          ⟨1, 1, .Deposit 50000⟩).2).handle_transaction
          ⟨1, 1, .Dispute⟩).2).handle_transaction ⟨1, 1, .Resolve⟩).2.held =
        (((ClientBalance.fresh 1).handle_transaction
          ⟨1, 1, .Deposit 50000⟩).2).held ∧
      ((((((ClientBalance.fresh 1).handle_transaction
          ⟨1, 1, .Deposit 50000⟩).2).handle_transaction
          ⟨1, 1, .Dispute⟩).2).handle_transaction
          ⟨1, 1, .Resolve⟩).2.transactions.lookup 1 =
        some (.Deposit 50000 .Resolved) :=
  dispute_resolve_round_trip (ClientBalance.fresh 1) 1 1 50000
    ((ClientBalance.fresh 1).handle_transaction ⟨1, 1, .Deposit 50000⟩).2
    (((((ClientBalance.fresh 1).handle_transaction
      ⟨1, 1, .Deposit 50000⟩).2).handle_transaction ⟨1, 1, .Dispute⟩).2)
    ((((((ClientBalance.fresh 1).handle_transaction
      ⟨1, 1, .Deposit 50000⟩).2).handle_transaction
      ⟨1, 1, .Dispute⟩).2).handle_transaction ⟨1, 1, .Resolve⟩).2
    ((((ClientBalance.fresh 1).handle_transaction
      ⟨1, 1, .Deposit 50000⟩).2).handle_transaction ⟨1, 1, .Dispute⟩).1
    (((((ClientBalance.fresh 1).handle_transaction
      ⟨1, 1, .Deposit 50000⟩).2).handle_transaction
      ⟨1, 1, .Dispute⟩).2.handle_transaction ⟨1, 1, .Resolve⟩).1
    rfl rfl rfl

/-- C9: Zero/negative law — on an unlocked account, a Deposit or
Withdrawal with amount `a < 0` is rejected with `NegativeAmount` and with
`a = 0` with `ZeroAmount`, in both cases leaving the entire state
(including the ledger-entry map) unchanged. -/
theorem nonpositive_amount_rejected (s : ClientBalance) (c : ClientID)
    (id : TransactionID) (a : Amount) (h : s.locked = false) :
    (a < 0 →
      s.handle_transaction ⟨c, id, .Deposit a⟩ =
        (.error (.IgnoredTransactionReason id .NegativeAmount), s) ∧
      s.handle_transaction ⟨c, id, .Withdrawal a⟩ =
        (.error (.IgnoredTransactionReason id .NegativeAmount), s)) ∧
    (a = 0 →
      s.handle_transaction ⟨c, id, .Deposit a⟩ =
        (.error (.IgnoredTransactionReason id .ZeroAmount), s) ∧
      s.handle_transaction ⟨c, id, .Withdrawal a⟩ =
        (.error (.IgnoredTransactionReason id .ZeroAmount), s)) := by
  constructor
  · intro ha
    constructor <;>
      simp [ClientBalance.handle_transaction, ClientBalance.handle_deposit,
        ClientBalance.handle_withdrawal,
        ClientBalance.handle_deposit_or_withdrawal_insertion,
        Amount.is_negative, h, ha]
  · intro ha
    subst ha
    constructor <;>
      simp [ClientBalance.handle_transaction, ClientBalance.handle_deposit,
        ClientBalance.handle_withdrawal,
        ClientBalance.handle_deposit_or_withdrawal_insertion,
        Amount.is_negative, Amount.is_zero, h]

/-- Witness for C9 at a concrete state and amounts. -/
theorem nonpositive_amount_rejected_witness :
    (ClientBalance.fresh 3).handle_transaction ⟨3, 9, .Deposit (-5)⟩ =
      (.error (.IgnoredTransactionReason 9 .NegativeAmount),
        ClientBalance.fresh 3) :=
  ((nonpositive_amount_rejected (ClientBalance.fresh 3) 3 9 (-5) rfl).1
    (by decide)).1

end ToyAtm
